import Mathlib

set_option autoImplicit false

/-!
Verification development for the BeejaFront browser helper layer.

The JavaScript sources are shallowly embedded as pure Lean functions:

* `src/config/environment.js` — environment resolver (`getCurrentConfig`)
  and the timeout-scoped fetch wrapper (`corsAwareFetch`);
* `src/utils/corsHandler.js` — string-heuristic error classifier
  (`isCORSError`, `isNetworkError`);
* `src/services/apiConnector.js` (bundled in `DebugPanel.jsx`) — the axios
  based request pipeline (`apiConnector`, `apiConnectorWithRetry`,
  `testAPIConnectivity`) with its response interceptor;
* `src/utils/apiDebugger.js` — diagnostics aggregator (`quickDiagnostic`,
  `testAdminAPI`).

Ambient browser state (window.location.hostname, settled transport
outcomes, thrown exceptions, stored tokens) is passed explicitly as
function arguments; asynchronous control flow is embedded by case
analysis on the settled outcome of each awaited call.
-/

/-! ## String utilities: JavaScript String.prototype.includes -/

/-- Prefix test on character lists: true when the first list is an initial
segment of the second. -/
def startsWithCh : List Char → List Char → Bool
  | [], _ => true
  | _ :: _, [] => false
  | c :: cs, d :: ds => c == d && startsWithCh cs ds

/-- Contiguous-substring test on character lists: true when `pat` occurs
inside the second list. -/
def containsCh (pat : List Char) : List Char → Bool
  | [] => startsWithCh pat []
  | c :: rest => startsWithCh pat (c :: rest) || containsCh pat rest

/-- Model of the case-sensitive JavaScript call `s.includes(pat)`. -/
def strIncludes (s pat : String) : Bool :=
  containsCh pat.toList s.toList

/-- ASCII lower-casing of one character. -/
def lowerChar (c : Char) : Char :=
  if 65 ≤ c.toNat ∧ c.toNat ≤ 90 then Char.ofNat (c.toNat + 32) else c

/-- ASCII lower-casing of a string. -/
def lowerStr (s : String) : String :=
  String.mk (s.toList.map lowerChar)

/-- Case-insensitive substring test, the reading used by the specification
for the CORS phrase list. -/
def ciIncludes (s pat : String) : Bool :=
  strIncludes (lowerStr s) (lowerStr pat)

/-- Optional-chaining form `m?.includes(pat)`: an absent string matches
nothing. -/
def jsIncludes (m : Option String) (pat : String) : Bool :=
  match m with
  | none => false
  | some s => strIncludes s pat

/-- JavaScript truthiness of an optional string: `undefined` and the empty
string are falsy. -/
def jsTruthy : Option String → Bool
  | none => false
  | some s => !(s == "")

/-! ## Environment resolver (src/config/environment.js) -/

/-- One named entry of `API_CONFIG`. -/
structure ApiConfig where
  BASE_URL : String
  USE_PROXY : Bool
  TIMEOUT : Nat
  RETRY_ATTEMPTS : Nat
  deriving DecidableEq

/-- The three fixed configurations of `API_CONFIG`. -/
structure ApiConfigTable where
  development : ApiConfig
  production : ApiConfig
  staging : ApiConfig
  deriving DecidableEq

/-- The `API_CONFIG` object from `environment.js`. -/
def API_CONFIG : ApiConfigTable :=
  { development := { BASE_URL := "http://localhost:4000", USE_PROXY := true,
                     TIMEOUT := 10000, RETRY_ATTEMPTS := 3 }
    production := { BASE_URL := "https://beejalms.onrender.com", USE_PROXY := false,
                    TIMEOUT := 15000, RETRY_ATTEMPTS := 2 }
    staging := { BASE_URL := "https://beejalms-staging.onrender.com", USE_PROXY := false,
                 TIMEOUT := 12000, RETRY_ATTEMPTS := 2 } }

/-- The `isDevelopment` test of `getEnvironment`, with
`window.location.hostname` passed explicitly. -/
def isDevelopment (hostname : String) : Bool :=
  hostname == "localhost" || hostname == "127.0.0.1"

/-- The `isProduction` test of `getEnvironment`: the hostname contains one
of the three fixed hosting suffixes. -/
def isProduction (hostname : String) : Bool :=
  strIncludes hostname "onrender.com" || strIncludes hostname "netlify.app" ||
    strIncludes hostname "vercel.app"

/-- Result shape of `getCurrentConfig`: the selected `API_CONFIG` entry
spread together with an `environment` name. -/
structure CurrentConfig extends ApiConfig where
  environment : String
  deriving DecidableEq

/-- The `getCurrentConfig` function of `environment.js`. -/
def getCurrentConfig (hostname : String) : CurrentConfig :=
  if isDevelopment hostname then
    { toApiConfig := API_CONFIG.development, environment := "development" }
  else if isProduction hostname then
    { toApiConfig := API_CONFIG.production, environment := "production" }
  else
    { toApiConfig := API_CONFIG.production, environment := "unknown" }

/-! ## Error classifier (src/utils/corsHandler.js) -/

/-- The error object inspected by `CORSErrorHandler`: its `message`,
axios `code`, the status of `error.response` when a response exists
(`none` models an undefined `error.response`), and the truthiness of
`error.request`. -/
structure JsError where
  message : Option String
  code : Option String
  responseStatus : Option Nat
  hasRequest : Bool
  deriving DecidableEq

/-- `CORSErrorHandler.isCORSError`: case-sensitive substring matches on the
message, or a transport failure with no response, a request object and no
error code. -/
def isCORSError (e : JsError) : Bool :=
  jsIncludes e.message "CORS" ||
  jsIncludes e.message "Access-Control-Allow-Origin" ||
  jsIncludes e.message "Cross-Origin Request Blocked" ||
  (e.responseStatus.isNone && e.hasRequest && !(jsTruthy e.code))

/-- `CORSErrorHandler.isNetworkError`. -/
def isNetworkError (e : JsError) : Bool :=
  e.code == some "NETWORK_ERROR" ||
  jsIncludes e.message "Network Error" ||
  jsIncludes e.message "ERR_NETWORK" ||
  jsIncludes e.message "ERR_FAILED"

/-- A single-quote character as a string, used to spell messages that
contain quotes. -/
def squote : String := String.singleton (Char.ofNat 39)

/-- The exact browser message named by the specification round-trip
example, including its single quotes. -/
def accessControlHeaderMessage : String :=
  "No " ++ squote ++ "Access-Control-Allow-Origin" ++ squote ++ " header is present"

/-- An error carrying `accessControlHeaderMessage` and no response. -/
def accessControlHeaderError : JsError :=
  { message := some accessControlHeaderMessage, code := none,
    responseStatus := none, hasRequest := true }

/-- A lower-case CORS message attached to an HTTP 500 failure: it matches
the phrase list case-insensitively but not case-sensitively. -/
def lowercaseCorsError : JsError :=
  { message := some "cors request rejected", code := some "ERR_BAD_REQUEST",
    responseStatus := some 500, hasRequest := true }

/-! ## Request pipeline (apiConnector / apiConnectorWithRetry) -/

/-- Settled outcome of one awaited `apiConnector` call at the axios level:
either axios resolved (a response whose status passed `validateStatus`) or
it rejected with an error object. -/
inductive AttemptResult where
  | success (status : Nat) (body : String)
  | failure (e : JsError)
  deriving DecidableEq

/-- True when the attempt resolved. -/
def AttemptResult.isSuccess : AttemptResult → Bool
  | AttemptResult.success _ _ => true
  | AttemptResult.failure _ => false

/-- The error object after the response interceptor of `axiosInstance`:
the original error spread together with the `corsError` / `networkError`
flags the interceptor attaches. -/
structure InterceptedError extends JsError where
  corsError : Bool
  networkError : Bool
  deriving DecidableEq

/-- The response interceptor error path: a CORS-classified rejection gains
`corsError: true`, otherwise a network-classified rejection gains
`networkError: true`, otherwise the error passes through unchanged. -/
def intercept (e : JsError) : InterceptedError :=
  if isCORSError e then
    { toJsError := e, corsError := true, networkError := false }
  else if isNetworkError e then
    { toJsError := e, corsError := false, networkError := true }
  else
    { toJsError := e, corsError := false, networkError := false }

/-- `apiConnector` returns the `axiosInstance(requestConfig)` promise: a
resolved response passes through, a rejection carries the intercepted
error. -/
def apiConnector : AttemptResult → Except InterceptedError (Nat × String)
  | AttemptResult.success s b => Except.ok (s, b)
  | AttemptResult.failure e => Except.error (intercept e)

/-- The no-retry guard of `apiConnectorWithRetry`:
`error.corsError || (status >= 400 && status < 500)`. -/
def noRetry (e : InterceptedError) : Bool :=
  e.corsError ||
    (match e.responseStatus with
     | some s => decide (400 ≤ s) && decide (s < 500)
     | none => false)

/-- True when a failed attempt would be retried by the loop. -/
def retryableFailure : AttemptResult → Bool
  | AttemptResult.success _ _ => false
  | AttemptResult.failure e => !(noRetry (intercept e))

/-- The intercepted error of a failed attempt, `none` for a success. -/
def errInterceptOf : AttemptResult → Option InterceptedError
  | AttemptResult.success _ _ => none
  | AttemptResult.failure e => some (intercept e)

/-- Observable trace of one `apiConnectorWithRetry` call: how many attempts
ran, the backoff delays (ms) inserted between attempts, and whether the
promise resolved (`Except.ok`) or rejected with a thrown error
(`Except.error`; `Except.error none` is the degenerate
`throw lastError` with the loop never entered). -/
structure RetryTrace where
  attempts : Nat
  delays : List Nat
  outcome : Except (Option InterceptedError) (Nat × String)

/-- The `for (attempt = 1; attempt <= RETRY_ATTEMPTS; attempt++)` loop of
`apiConnectorWithRetry`, at loop index `a` with `rem` attempts still
allowed (the current one included).  A success returns the response; a
failure rethrows at once when `noRetry` holds or the budget is exhausted,
and otherwise sleeps `2 ^ (a - 1) * 1000` ms and continues. -/
def retryGo (t : Nat → AttemptResult) : Nat → Nat → RetryTrace
  | _, 0 => ⟨0, [], Except.error none⟩
  | a, r + 1 =>
    match apiConnector (t a) with
    | Except.ok resp => ⟨1, [], Except.ok resp⟩
    | Except.error e =>
      if noRetry e || r == 0 then
        ⟨1, [], Except.error (some e)⟩
      else
        let rest := retryGo t (a + 1) r
        ⟨1 + rest.attempts, 2 ^ (a - 1) * 1000 :: rest.delays, rest.outcome⟩

/-- `apiConnectorWithRetry`, with `envConfig.RETRY_ATTEMPTS` and the
attempt-indexed settled transport outcomes passed explicitly. -/
def apiConnectorWithRetry (retryAttempts : Nat) (t : Nat → AttemptResult) : RetryTrace :=
  retryGo t 1 retryAttempts

/-- The backoff sequence produced by the loop when the current attempt
index is `a` and `k` further delays are inserted: `2 ^ (a - 1) * 1000`,
then the sequence one attempt later. -/
def expectedDelays (a : Nat) : Nat → List Nat
  | 0 => []
  | k + 1 => 2 ^ (a - 1) * 1000 :: expectedDelays (a + 1) k

/-- A plain axios network failure: retryable, not CORS-classified (its
`code` is set). -/
def networkFailureError : JsError :=
  { message := some "Network Error", code := some "NETWORK_ERROR",
    responseStatus := none, hasRequest := true }

/-- The transport of the specification scenario: two retryable network
failures, then a success. -/
def exampleTransport : Nat → AttemptResult
  | 3 => AttemptResult.success 200 "ok"
  | _ => AttemptResult.failure networkFailureError

/-- A transport whose every attempt fails with a plain network error. -/
def alwaysFailingTransport : Nat → AttemptResult :=
  fun _ => AttemptResult.failure networkFailureError

/-- The axios rejection produced by an HTTP 404 response. -/
def notFoundError : JsError :=
  { message := some "Request failed with status code 404",
    code := some "ERR_BAD_REQUEST", responseStatus := some 404, hasRequest := true }

/-! ## Transport-level view and testAPIConnectivity -/

/-- What the network did for one request, before axios classifies it: a
server response with some status and body, a transport exception with no
response, or the axios timeout firing. -/
inductive TransportResult where
  | response (status : Nat) (body : String)
  | netError (message : String) (code : Option String)
  | timeout (ms : Nat)
  deriving DecidableEq

/-- How axios settles a transport result (library collaborator of the
source, embedded from its documented defaults): a response resolves when
the default `validateStatus` accepts it (status 200–299) and otherwise
rejects with an error carrying that response; a transport exception or the
timeout rejects with no response attached. -/
def axiosSettle : TransportResult → AttemptResult
  | TransportResult.response s body =>
    if 200 ≤ s ∧ s < 300 then AttemptResult.success s body
    else AttemptResult.failure
      { message := some ("Request failed with status code " ++ toString s),
        code := some (if s < 500 then "ERR_BAD_REQUEST" else "ERR_BAD_RESPONSE"),
        responseStatus := some s, hasRequest := true }
  | TransportResult.netError m c =>
    AttemptResult.failure
      { message := some m, code := c, responseStatus := none, hasRequest := true }
  | TransportResult.timeout ms =>
    AttemptResult.failure
      { message := some ("timeout of " ++ toString ms ++ "ms exceeded"),
        code := some "ECONNABORTED", responseStatus := none, hasRequest := true }

/-- Result shape of `testAPIConnectivity`: the `success` flag and, on the
failure path, the message of the caught error (`quickDiagnostic` reads
`apiResult.error?.message`). -/
structure TestAPIResult where
  success : Bool
  errorMessage : Option String
  deriving DecidableEq

/-- `testAPIConnectivity`: awaits `apiConnector("GET", baseUrl + "/health")`
and reports `success: true` on resolution, `success: false` with the caught
error on rejection. -/
def testAPIConnectivity (tr : TransportResult) : TestAPIResult :=
  match apiConnector (axiosSettle tr) with
  | Except.ok _ => { success := true, errorMessage := none }
  | Except.error e => { success := false, errorMessage := e.message }

/-! ## Diagnostics aggregator (src/utils/apiDebugger.js) -/

/-- Snapshot of `getEnvironmentInfo()` stored by the environment check;
its browser-supplied fields are carried opaquely. -/
structure EnvInfo where
  hostname : String
  origin : String
  userAgent : String
  deriving DecidableEq

/-- Details stored in one `tests` entry: the environment check stores the
`getEnvironmentInfo()` object, the other checks store a message string. -/
inductive DiagDetails where
  | envSnapshot (info : EnvInfo)
  | text (s : String)
  deriving DecidableEq

/-- One `tests` entry: `{passed, details}`. -/
structure QuickTest where
  passed : Bool
  details : DiagDetails
  deriving DecidableEq

/-- The report built by `quickDiagnostic`: timestamp, current environment
name, and the `tests` entries in insertion order. -/
structure DiagnosticReport where
  timestamp : String
  environment : String
  tests : List (String × QuickTest)
  deriving DecidableEq

/-- JavaScript `o?.message || fallback`: an absent or empty message falls
back. -/
def jsMessageOr (m : Option String) (fallback : String) : String :=
  match m with
  | some s => if s == "" then fallback else s
  | none => fallback

/-- `quickDiagnostic`: builds the three fixed test entries in order.  The
settled outcome of each awaited check is an explicit argument;
`Except.error m` models the check throwing an error whose message is `m`,
which the surrounding `try`/`catch` captures as a failed entry.  The
function is total: every combination of outcomes yields a report. -/
def quickDiagnostic (timestamp hostname : String) (envInfo : EnvInfo)
    (corsOutcome : Except String Bool)
    (apiOutcome : Except String TestAPIResult) : DiagnosticReport :=
  let envTest : String × QuickTest :=
    ("environment", { passed := true, details := DiagDetails.envSnapshot envInfo })
  let corsTest : String × QuickTest :=
    match corsOutcome with
    | Except.ok b =>
      ("cors", { passed := b,
                 details := DiagDetails.text
                   (if b then "CORS connection successful" else "CORS connection failed") })
    | Except.error m => ("cors", { passed := false, details := DiagDetails.text m })
  let apiTest : String × QuickTest :=
    match apiOutcome with
    | Except.ok r =>
      ("apiConnectivity",
        { passed := r.success,
          details := DiagDetails.text
            (if r.success then "API reachable"
             else jsMessageOr r.errorMessage "API unreachable") })
    | Except.error m =>
      ("apiConnectivity", { passed := false, details := DiagDetails.text m })
  { timestamp := timestamp,
    environment := (getCurrentConfig hostname).environment,
    tests := [envTest, corsTest, apiTest] }

/-! ## corsAwareFetch (src/config/environment.js) -/

/-- The message of the error thrown on the abort path. -/
def timeoutMessage (t : Nat) : String :=
  "Request timeout after " ++ toString t ++ "ms"

/-- One-shot timer handle created by `setTimeout`. -/
structure TimerState where
  armed : Bool
  fired : Bool
  deriving DecidableEq

/-- Settled outcome of the awaited `fetch` inside `corsAwareFetch`:
resolution before the timer, rejection before the timer, or the timer
firing first (aborting the fetch, which then rejects with `AbortError`). -/
inductive FetchEvent where
  | resolved (status : Nat) (body : String)
  | rejected (name : String) (message : String)
  | timedOut
  deriving DecidableEq

/-- Trace of one `corsAwareFetch` call: the final timer state and the
settled result (`Except.error` models the wrapper throwing). -/
structure FetchTrace where
  timer : TimerState
  result : Except String (Nat × String)

/-- `corsAwareFetch`: arms the timeout timer, awaits the fetch, and clears
the timer on the success path and on the catch path alike; an `AbortError`
(the timer having fired) is rethrown as the timeout error. -/
def corsAwareFetch (timeoutMs : Nat) (ev : FetchEvent) : FetchTrace :=
  let armedTimer : TimerState := { armed := true, fired := false }
  let timerAfterTransport : TimerState :=
    match ev with
    | FetchEvent.timedOut => { armed := false, fired := true }
    | _ => armedTimer
  let clearedTimer : TimerState := { armed := false, fired := timerAfterTransport.fired }
  match ev with
  | FetchEvent.resolved s b => ⟨clearedTimer, Except.ok (s, b)⟩
  | FetchEvent.rejected n m =>
    ⟨clearedTimer,
      Except.error (if n == "AbortError" then timeoutMessage timeoutMs else m)⟩
  | FetchEvent.timedOut => ⟨clearedTimer, Except.error (timeoutMessage timeoutMs)⟩

/-! ## testAdminAPI (src/utils/apiDebugger.js) -/

/-- Result shape of `testAdminAPI`. -/
structure AdminAPIResult where
  success : Bool
  error : Option String
  status : Option Nat
  deriving DecidableEq

/-- Settled outcome of the awaited `fetch` inside `testAdminAPI`: a
response (with status, status text, body text and whether the body parses
as JSON) or a thrown exception. -/
inductive AdminFetchEvent where
  | response (status : Nat) (statusText : String) (bodyText : String) (parsesAsJson : Bool)
  | thrown (name : String) (message : String)
  deriving DecidableEq

/-- The early-return value of the missing-token guard. -/
def noTokenResult : AdminAPIResult :=
  { success := false, error := some "No token provided", status := none }

/-- `testAdminAPI`: returns `noTokenResult` without any request when the
token is falsy; otherwise issues the fetch and classifies its outcome.
The first component records whether the HTTP request was performed. -/
def testAdminAPI (token : Option String) (ev : AdminFetchEvent) : Bool × AdminAPIResult :=
  if !(jsTruthy token) then
    (false, noTokenResult)
  else
    (true,
      match ev with
      | AdminFetchEvent.response s st _ parses =>
        if 200 ≤ s ∧ s < 300 then
          if parses then { success := true, error := none, status := some s }
          else { success := false, error := some "Invalid JSON response", status := none }
        else
          { success := false, error := some ("HTTP " ++ toString s ++ ": " ++ st),
            status := some s }
      | AdminFetchEvent.thrown _ m =>
        { success := false, error := some m, status := none })

/-- The health-endpoint body of the specification scenario. -/
def okHealthBody : String := "\x7b\x22status\x22:\x22ok\x22\x7d"

/-- A fixed environment snapshot used for concrete diagnostic runs. -/
def exampleEnvInfo : EnvInfo :=
  { hostname := "localhost", origin := "http://localhost:3000", userAgent := "test-agent" }

/-! ## Helper lemmas about the interceptor and the retry loop -/

theorem intercept_toJsError (e : JsError) : (intercept e).toJsError = e := by
  by_cases h1 : isCORSError e = true <;> by_cases h2 : isNetworkError e = true <;>
    simp [intercept, h1, h2]

theorem intercept_corsError (e : JsError) : (intercept e).corsError = isCORSError e := by
  by_cases h1 : isCORSError e = true <;> by_cases h2 : isNetworkError e = true <;>
    simp [intercept, h1, h2]

theorem intercept_responseStatus (e : JsError) :
    (intercept e).responseStatus = e.responseStatus := by
  show (intercept e).toJsError.responseStatus = e.responseStatus
  rw [intercept_toJsError]

theorem intercept_message (e : JsError) : (intercept e).message = e.message := by
  show (intercept e).toJsError.message = e.message
  rw [intercept_toJsError]

theorem noRetry_of_cors_or_4xx (e : JsError)
    (hc : isCORSError e = true ∨ ∃ s, e.responseStatus = some s ∧ 400 ≤ s ∧ s ≤ 499) :
    noRetry (intercept e) = true := by
  rcases hc with hc | ⟨s, hs, h4, h5⟩
  · simp [noRetry, intercept_corsError, hc]
  · have hr : (intercept e).responseStatus = some s := by
      rw [intercept_responseStatus]; exact hs
    simp only [noRetry, hr, Bool.or_eq_true, Bool.and_eq_true, decide_eq_true_eq]
    exact Or.inr ⟨h4, by omega⟩

theorem retryGo_succ_success (t : Nat → AttemptResult) (a r s : Nat) (b : String)
    (ht : t a = AttemptResult.success s b) :
    retryGo t a (r + 1) = ⟨1, [], Except.ok (s, b)⟩ := by
  simp [retryGo, ht, apiConnector]

theorem retryGo_succ_noretry (t : Nat → AttemptResult) (a r : Nat) (e : JsError)
    (ht : t a = AttemptResult.failure e)
    (hcond : (noRetry (intercept e) || r == 0) = true) :
    retryGo t a (r + 1) = ⟨1, [], Except.error (some (intercept e))⟩ := by
  simp [retryGo, ht, apiConnector, hcond]

theorem retryGo_succ_retry (t : Nat → AttemptResult) (a r : Nat) (e : JsError)
    (ht : t a = AttemptResult.failure e)
    (hcond : (noRetry (intercept e) || r == 0) = false) :
    retryGo t a (r + 1) =
      ⟨1 + (retryGo t (a + 1) r).attempts,
        2 ^ (a - 1) * 1000 :: (retryGo t (a + 1) r).delays,
        (retryGo t (a + 1) r).outcome⟩ := by
  simp [retryGo, ht, apiConnector, hcond]

theorem retryGo_attempts_le (t : Nat → AttemptResult) :
    ∀ (rem a : Nat), (retryGo t a rem).attempts ≤ rem := by
  intro rem
  induction rem with
  | zero => intro a; simp [retryGo]
  | succ r ih =>
    intro a
    cases ht : t a with
    | success s b => simp [retryGo, ht, apiConnector]
    | failure e =>
      simp only [retryGo, ht, apiConnector]
      split
      · simp
      · have := ih (a + 1)
        simp only
        omega

theorem retryGo_attempts_pos (t : Nat → AttemptResult) (a r : Nat) :
    1 ≤ (retryGo t a (r + 1)).attempts := by
  cases ht : t a with
  | success s b => simp [retryGo, ht, apiConnector]
  | failure e =>
    simp only [retryGo, ht, apiConnector]
    split
    · simp
    · simp only
      omega

theorem retryGo_delays_eq (t : Nat → AttemptResult) :
    ∀ (rem a : Nat),
      (retryGo t a rem).delays = expectedDelays a ((retryGo t a rem).attempts - 1) := by
  intro rem
  induction rem with
  | zero => intro a; simp [retryGo, expectedDelays]
  | succ r ih =>
    intro a
    cases ht : t a with
    | success s b => simp [retryGo, ht, apiConnector, expectedDelays]
    | failure e =>
      simp only [retryGo, ht, apiConnector]
      split
      · simp [expectedDelays]
      · rename_i hcond
        have hr : r ≠ 0 := by
          intro h
          subst h
          simp at hcond
        obtain ⟨r2, rfl⟩ : ∃ r2, r = r2 + 1 := ⟨r - 1, by omega⟩
        have hpos := retryGo_attempts_pos t (a + 1) r2
        obtain ⟨m, hm⟩ : ∃ m, (retryGo t (a + 1) (r2 + 1)).attempts = m + 1 :=
          ⟨(retryGo t (a + 1) (r2 + 1)).attempts - 1, by omega⟩
        have hrest := ih (a + 1)
        simp only
        rw [hrest, hm]
        simp [expectedDelays]

theorem expectedDelays_length (a k : Nat) : (expectedDelays a k).length = k := by
  induction k generalizing a with
  | zero => simp [expectedDelays]
  | succ k ih => simp [expectedDelays, ih]

theorem retryGo_first_success (t : Nat → AttemptResult) :
    ∀ (rem a j : Nat) (s : Nat) (b : String), j < rem →
      (∀ i, i < j → retryableFailure (t (a + i)) = true) →
      t (a + j) = AttemptResult.success s b →
      (retryGo t a rem).attempts = j + 1 ∧ (retryGo t a rem).outcome = Except.ok (s, b) := by
  intro rem
  induction rem with
  | zero => intro a j s b hj; omega
  | succ r ih =>
    intro a j s b hj hfail hsucc
    cases j with
    | zero =>
      have ht : t a = AttemptResult.success s b := by simpa using hsucc
      simp [retryGo, ht, apiConnector]
    | succ j =>
      have h0 : retryableFailure (t a) = true := by simpa using hfail 0 (by omega)
      cases ht : t a with
      | success s0 b0 => rw [ht] at h0; simp [retryableFailure] at h0
      | failure e =>
        rw [ht] at h0
        have hnr : noRetry (intercept e) = false := by
          simpa [retryableFailure] using h0
        have hrne : r ≠ 0 := by omega
        have hcond : (noRetry (intercept e) || r == 0) = false := by
          simp [hnr, hrne]
        have hfail' : ∀ i, i < j → retryableFailure (t (a + 1 + i)) = true := by
          intro i hi
          have h := hfail (i + 1) (by omega)
          rwa [show a + (i + 1) = a + 1 + i by omega] at h
        have hsucc' : t (a + 1 + j) = AttemptResult.success s b := by
          rwa [show a + (j + 1) = a + 1 + j by omega] at hsucc
        obtain ⟨h1, h2⟩ := ih (a + 1) j s b (by omega) hfail' hsucc'
        rw [retryGo_succ_retry t a r e ht hcond]
        constructor
        · show 1 + (retryGo t (a + 1) r).attempts = j + 1 + 1
          rw [h1]
          omega
        · exact h2

theorem retryGo_all_fail (t : Nat → AttemptResult) :
    ∀ (r a : Nat),
      (∀ i, i < r → retryableFailure (t (a + i)) = true) →
      (t (a + r)).isSuccess = false →
      (retryGo t a (r + 1)).attempts = r + 1 ∧
      (retryGo t a (r + 1)).outcome = Except.error (errInterceptOf (t (a + r))) := by
  intro r
  induction r with
  | zero =>
    intro a _ hlast
    rw [Nat.add_zero] at hlast ⊢
    cases ht : t a with
    | success s b => rw [ht] at hlast; simp [AttemptResult.isSuccess] at hlast
    | failure e => simp [retryGo, ht, apiConnector, errInterceptOf]
  | succ r ih =>
    intro a hfail hlast
    have h0 : retryableFailure (t a) = true := by simpa using hfail 0 (by omega)
    cases ht : t a with
    | success s b => rw [ht] at h0; simp [retryableFailure] at h0
    | failure e =>
      rw [ht] at h0
      have hnr : noRetry (intercept e) = false := by
        simpa [retryableFailure] using h0
      have hcond : (noRetry (intercept e) || (r + 1) == 0) = false := by simp [hnr]
      have hfail' : ∀ i, i < r → retryableFailure (t (a + 1 + i)) = true := by
        intro i hi
        have h := hfail (i + 1) (by omega)
        rwa [show a + (i + 1) = a + 1 + i by omega] at h
      have hlast' : (t (a + 1 + r)).isSuccess = false := by
        rwa [show a + (r + 1) = a + 1 + r by omega] at hlast
      obtain ⟨h1, h2⟩ := ih (a + 1) hfail' hlast'
      rw [retryGo_succ_retry t a (r + 1) e ht hcond]
      constructor
      · show 1 + (retryGo t (a + 1) (r + 1)).attempts = r + 1 + 1
        rw [h1]
        omega
      · show (retryGo t (a + 1) (r + 1)).outcome =
          Except.error (errInterceptOf (t (a + (r + 1))))
        rw [show a + (r + 1) = a + 1 + r by omega]
        exact h2

theorem retryGo_all_fail_kinds (t : Nat → AttemptResult) :
    ∀ (rem a : Nat), 1 ≤ rem →
      (∀ i, (t i).isSuccess = false) →
      1 ≤ (retryGo t a rem).attempts ∧
      (retryGo t a rem).outcome =
        Except.error (errInterceptOf (t (a + (retryGo t a rem).attempts - 1))) := by
  intro rem
  induction rem with
  | zero => intro a h; omega
  | succ r ih =>
    intro a _ hall
    cases ht : t a with
    | success s b =>
      have hcontra := hall a
      rw [ht] at hcontra
      simp [AttemptResult.isSuccess] at hcontra
    | failure e =>
      by_cases hcond : (noRetry (intercept e) || r == 0) = true
      · simp only [retryGo, ht, apiConnector, hcond, if_true]
        refine ⟨by omega, ?_⟩
        rw [show a + 1 - 1 = a by omega, ht]
        rfl
      · have hcond' : (noRetry (intercept e) || r == 0) = false := by
          cases h : (noRetry (intercept e) || r == 0)
          · rfl
          · exact absurd h hcond
        have hrne : r ≠ 0 := by
          intro h
          subst h
          simp at hcond'
        obtain ⟨r2, rfl⟩ : ∃ r2, r = r2 + 1 := ⟨r - 1, by omega⟩
        obtain ⟨h1, h2⟩ := ih (a + 1) (by omega) hall
        rw [retryGo_succ_retry t a (r2 + 1) e ht hcond']
        constructor
        · show 1 ≤ 1 + (retryGo t (a + 1) (r2 + 1)).attempts
          omega
        · show (retryGo t (a + 1) (r2 + 1)).outcome =
            Except.error (errInterceptOf
              (t (a + (1 + (retryGo t (a + 1) (r2 + 1)).attempts) - 1)))
          rw [show a + (1 + (retryGo t (a + 1) (r2 + 1)).attempts) - 1 =
                a + 1 + (retryGo t (a + 1) (r2 + 1)).attempts - 1 by omega]
          exact h2

theorem expectedDelays_get (k : Nat) :
    ∀ (j a : Nat), 1 ≤ a → j < k →
      (expectedDelays a k).get? j = some (2 ^ (a - 1 + j) * 1000) := by
  induction k with
  | zero => intro j a _ hj; omega
  | succ k ih =>
    intro j a ha hj
    cases j with
    | zero => simp [expectedDelays]
    | succ j =>
      have := ih j (a + 1) (by omega) (by omega)
      simp only [expectedDelays, List.get?_cons_succ]
      rw [this]
      have hx : a + 1 - 1 + j = a - 1 + (j + 1) := by omega
      rw [hx]

/-! ## Claim theorems -/

/-- Claim C2: a hostname equal to localhost or 127.0.0.1 resolves to the
development configuration named development; a hostname containing one of
the fixed hosting suffixes resolves to the production configuration named
production; every other hostname resolves to the production configuration
values under the name unknown. -/
theorem getCurrentConfig_environment_cases (h : String) :
    ((h = "localhost" ∨ h = "127.0.0.1") →
      getCurrentConfig h =
        { toApiConfig := API_CONFIG.development, environment := "development" }) ∧
    (isProduction h = true →
      getCurrentConfig h =
        { toApiConfig := API_CONFIG.production, environment := "production" }) ∧
    (¬(h = "localhost" ∨ h = "127.0.0.1") → isProduction h = false →
      getCurrentConfig h =
        { toApiConfig := API_CONFIG.production, environment := "unknown" }) := by
  refine ⟨?_, ?_, ?_⟩
  · rintro (rfl | rfl) <;> rfl
  · intro hp
    have hd : isDevelopment h = false := by
      cases hdev : isDevelopment h
      · rfl
      · exfalso
        have hcases : h = "localhost" ∨ h = "127.0.0.1" := by
          simpa [isDevelopment] using hdev
        rcases hcases with rfl | rfl
        · exact absurd hp (by decide)
        · exact absurd hp (by decide)
    simp [getCurrentConfig, hd, hp]
  · intro hnd hp
    have hd : isDevelopment h = false := by
      cases hdev : isDevelopment h
      · rfl
      · exact absurd (by simpa [isDevelopment] using hdev) hnd
    simp [getCurrentConfig, hd, hp]

/-- Witness for claim C2 at the concrete hostname localhost. -/
theorem getCurrentConfig_environment_cases_witness :
    getCurrentConfig "localhost" =
      { toApiConfig := API_CONFIG.development, environment := "development" } :=
  (getCurrentConfig_environment_cases "localhost").1 (Or.inl rfl)

/-- Claim C6 counterexample: JavaScript includes is case-sensitive, so an
error whose message matches the phrase CORS only case-insensitively (and
which carries a response and a code, defeating the other clauses) is not
classified as a CORS error, refuting the case-insensitive reading of the
claim at this concrete input. -/
theorem isCORSError_case_insensitive_cex :
    ciIncludes "cors request rejected" "CORS" = true ∧
    isCORSError lowercaseCorsError = false := by
  exact ⟨by decide, by decide⟩

/-- Claim C6 (amended): for every error whose message contains one of the
fixed phrases under case-sensitive substring matching, isCORSError returns
true; in particular the message about a missing Access-Control-Allow-Origin
header classifies as cors. -/
theorem isCORSError_case_sensitive_match :
    (∀ (e : JsError) (m : String), e.message = some m →
      (strIncludes m "CORS" = true ∨
        strIncludes m "Access-Control-Allow-Origin" = true ∨
        strIncludes m "Cross-Origin Request Blocked" = true) →
      isCORSError e = true) ∧
    isCORSError accessControlHeaderError = true := by
  constructor
  · intro e m hm hmatch
    simp only [isCORSError, jsIncludes, hm]
    rcases hmatch with h | h | h <;> simp [h]
  · decide

/-- Witness for claim C6 at a concrete error whose message starts with the
phrase CORS. -/
theorem isCORSError_case_sensitive_match_witness :
    isCORSError { message := some "CORS policy blocked this request", code := none,
                  responseStatus := some 500, hasRequest := true } = true :=
  isCORSError_case_sensitive_match.1 _ "CORS policy blocked this request" rfl
    (Or.inl (by decide))

/-- Claim C1 counterexample: with the production retry budget of 2 and both
attempts failing with a plain network error, apiConnectorWithRetry rejects
(models the JavaScript throw of the last error) instead of resolving to any
success-false value, and a single failed apiConnector call likewise
rejects. -/
theorem pipeline_throws_on_failure_cex :
    (apiConnectorWithRetry 2 alwaysFailingTransport).outcome =
      Except.error (some (intercept networkFailureError)) ∧
    apiConnector (AttemptResult.failure networkFailureError) =
      Except.error (intercept networkFailureError) :=
  ⟨rfl, rfl⟩

/-- Claim C1 (amended): failure paths of the request pipeline reject
rather than resolve — a failed attempt makes apiConnector reject with the
interceptor-classified error, and when every attempt fails
apiConnectorWithRetry rejects with the classified error of the last
attempt made; callers must catch to obtain a success-false record. -/
theorem pipeline_rejects_classified_error :
    (∀ (e : JsError),
      apiConnector (AttemptResult.failure e) = Except.error (intercept e)) ∧
    (∀ (n : Nat) (t : Nat → AttemptResult), 1 ≤ n →
      (∀ i, (t i).isSuccess = false) →
      (apiConnectorWithRetry n t).outcome =
        Except.error (errInterceptOf (t (apiConnectorWithRetry n t).attempts))) := by
  constructor
  · intro e
    rfl
  · intro n t hn hall
    obtain ⟨h1, h2⟩ := retryGo_all_fail_kinds t n 1 hn hall
    unfold apiConnectorWithRetry
    rw [h2, show 1 + (retryGo t 1 n).attempts - 1 = (retryGo t 1 n).attempts by omega]

/-- Witness for claim C1 with a single failing attempt. -/
theorem pipeline_rejects_classified_error_witness :
    (apiConnectorWithRetry 1 alwaysFailingTransport).outcome =
      Except.error (errInterceptOf (alwaysFailingTransport
        (apiConnectorWithRetry 1 alwaysFailingTransport).attempts)) :=
  pipeline_rejects_classified_error.2 1 alwaysFailingTransport (by decide) (fun _ => rfl)

/-- Claim C3: when the first attempt fails with a CORS-classified error or
an HTTP status in the range 400 to 499, apiConnectorWithRetry makes exactly
one attempt and surfaces that failure (the classified error is thrown) to
the caller. -/
theorem retry_stops_on_cors_or_client_error (n : Nat) (t : Nat → AttemptResult)
    (e : JsError) (hn : 1 ≤ n) (h1 : t 1 = AttemptResult.failure e)
    (hc : isCORSError e = true ∨ ∃ s, e.responseStatus = some s ∧ 400 ≤ s ∧ s ≤ 499) :
    (apiConnectorWithRetry n t).attempts = 1 ∧
    (apiConnectorWithRetry n t).outcome = Except.error (some (intercept e)) := by
  obtain ⟨m, rfl⟩ : ∃ m, n = m + 1 := ⟨n - 1, by omega⟩
  have hcond : (noRetry (intercept e) || m == 0) = true := by
    simp [noRetry_of_cors_or_4xx e hc]
  unfold apiConnectorWithRetry
  rw [retryGo_succ_noretry t 1 m e h1 hcond]
  exact ⟨rfl, rfl⟩

/-- Witness for claim C3: an HTTP 404 failure on the first attempt stops
the retry loop after one attempt even with budget 2. -/
theorem retry_stops_on_cors_or_client_error_witness :
    (apiConnectorWithRetry 2 (fun _ => AttemptResult.failure notFoundError)).attempts = 1 :=
  (retry_stops_on_cors_or_client_error 2 (fun _ => AttemptResult.failure notFoundError)
    notFoundError (by decide) rfl (Or.inr ⟨404, rfl, by decide, by decide⟩)).1

/-- Claim C4: apiConnectorWithRetry makes at most n attempts, returns the
response of the first successful attempt as soon as it occurs, surfaces the
last attempt outcome when the whole budget fails, and on the specification
scenario (budget 3, two retryable failures then a success) succeeds after
exactly 3 attempts. -/
theorem retry_budget_and_final_outcome (n : Nat) (t : Nat → AttemptResult)
    (hn : 1 ≤ n) :
    (apiConnectorWithRetry n t).attempts ≤ n ∧
    (∀ (k s : Nat) (b : String), 1 ≤ k → k ≤ n →
      (∀ i, 1 ≤ i → i < k → retryableFailure (t i) = true) →
      t k = AttemptResult.success s b →
      (apiConnectorWithRetry n t).attempts = k ∧
      (apiConnectorWithRetry n t).outcome = Except.ok (s, b)) ∧
    ((∀ i, 1 ≤ i → i < n → retryableFailure (t i) = true) →
      (t n).isSuccess = false →
      (apiConnectorWithRetry n t).attempts = n ∧
      (apiConnectorWithRetry n t).outcome = Except.error (errInterceptOf (t n))) ∧
    apiConnectorWithRetry 3 exampleTransport =
      ⟨3, [1000, 2000], Except.ok (200, "ok")⟩ := by
  refine ⟨retryGo_attempts_le t n 1, ?_, ?_, rfl⟩
  · intro k s b hk1 hkn hfail hsucc
    obtain ⟨j, rfl⟩ : ∃ j, k = j + 1 := ⟨k - 1, by omega⟩
    have hfail' : ∀ i, i < j → retryableFailure (t (1 + i)) = true := by
      intro i hi
      exact hfail (1 + i) (by omega) (by omega)
    have hsucc' : t (1 + j) = AttemptResult.success s b := by
      rwa [show 1 + j = j + 1 by omega]
    have hgo := retryGo_first_success t n 1 j s b (by omega) hfail' hsucc'
    simpa [apiConnectorWithRetry] using hgo
  · intro hfail hlast
    obtain ⟨r, rfl⟩ : ∃ r, n = r + 1 := ⟨n - 1, by omega⟩
    have hfail' : ∀ i, i < r → retryableFailure (t (1 + i)) = true := by
      intro i hi
      exact hfail (1 + i) (by omega) (by omega)
    have hlast' : (t (1 + r)).isSuccess = false := by
      rwa [show 1 + r = r + 1 by omega]
    have hgo := retryGo_all_fail t r 1 hfail' hlast'
    rw [show 1 + r = r + 1 by omega] at hgo
    simpa [apiConnectorWithRetry] using hgo

/-- Witness for claim C4 on the specification scenario. -/
theorem retry_budget_and_final_outcome_witness :
    apiConnectorWithRetry 3 exampleTransport =
      ⟨3, [1000, 2000], Except.ok (200, "ok")⟩ :=
  (retry_budget_and_final_outcome 3 exampleTransport (by decide)).2.2.2

/-- Claim C5: no delay precedes attempt 1 (the delay list has one entry
per retry transition, attempts minus one in all), and the delay inserted
before attempt k (for k at least 2) is exactly 2 ^ (k - 2) * 1000
milliseconds. -/
theorem retry_backoff_delays (n : Nat) (t : Nat → AttemptResult) :
    (apiConnectorWithRetry n t).delays.length =
      (apiConnectorWithRetry n t).attempts - 1 ∧
    (∀ k, 2 ≤ k → k ≤ (apiConnectorWithRetry n t).attempts →
      (apiConnectorWithRetry n t).delays.get? (k - 2) =
        some (2 ^ (k - 2) * 1000)) := by
  unfold apiConnectorWithRetry
  have hdel := retryGo_delays_eq t n 1
  constructor
  · rw [hdel, expectedDelays_length]
  · intro k hk2 hkatt
    rw [hdel]
    have hg := expectedDelays_get ((retryGo t 1 n).attempts - 1) (k - 2) 1
      (by omega) (by omega)
    rw [hg, show 1 - 1 + (k - 2) = k - 2 by omega]

/-- Witness for claim C5: on the specification scenario the delay before
attempt 2 is 1000 ms. -/
theorem retry_backoff_delays_witness :
    (apiConnectorWithRetry 3 exampleTransport).delays.get? 0 =
      some (2 ^ 0 * 1000) :=
  (retry_backoff_delays 3 exampleTransport).2 2 (by decide) (by decide)

/-- Claim C7: for every combination of check outcomes, including checks
that fail or throw, quickDiagnostic returns a report whose tests list has
exactly 3 entries inserted in the fixed order environment, cors,
apiConnectivity; the aggregator is a total function of the check outcomes,
so it never raises an error of its own, and each entry is a passed/details
record by construction. -/
theorem quickDiagnostic_three_tests_fixed_order (ts hostname : String)
    (envInfo : EnvInfo) (corsOutcome : Except String Bool)
    (apiOutcome : Except String TestAPIResult) :
    (quickDiagnostic ts hostname envInfo corsOutcome apiOutcome).tests.map Prod.fst =
      ["environment", "cors", "apiConnectivity"] ∧
    (quickDiagnostic ts hostname envInfo corsOutcome apiOutcome).tests.length = 3 := by
  cases corsOutcome <;> cases apiOutcome <;> simp [quickDiagnostic]

/-- Claim C8 counterexample: an HTTP 404 response is received from the
health endpoint, yet testAPIConnectivity reports success false (axios
rejects non-2xx statuses under its default validateStatus), so the
apiConnectivity entry of the diagnostic reports passed false, refuting
the any-status reading of the claim at this concrete input. -/
theorem apiConnectivity_nonOk_status_cex :
    (testAPIConnectivity (TransportResult.response 404 "Not Found")).success = false ∧
    ((quickDiagnostic "t0" "localhost" exampleEnvInfo (Except.ok true)
        (Except.ok (testAPIConnectivity (TransportResult.response 404 "Not Found")))).tests.get? 2).map
      (fun p => p.2.passed) = some false :=
  ⟨rfl, rfl⟩

/-- Claim C8 (amended): the apiConnectivity check passes exactly when the
health endpoint responds with a 2xx status within the timeout (the axios
default validateStatus); in particular an HTTP 200 response with body
status ok yields passed true, and a non-2xx response yields passed
false. -/
theorem apiConnectivity_passes_iff_2xx (s : Nat) (b : String) :
    ((200 ≤ s ∧ s < 300) →
      (testAPIConnectivity (TransportResult.response s b)).success = true) ∧
    ((s < 200 ∨ 300 ≤ s) →
      (testAPIConnectivity (TransportResult.response s b)).success = false) ∧
    (testAPIConnectivity (TransportResult.response 200 okHealthBody)).success = true := by
  refine ⟨?_, ?_, rfl⟩
  · intro h
    simp [testAPIConnectivity, axiosSettle, apiConnector, h]
  · intro h
    have h' : ¬(200 ≤ s ∧ s < 300) := by omega
    simp [testAPIConnectivity, axiosSettle, apiConnector, h']

/-- Witness for claim C8 at a concrete 2xx response. -/
theorem apiConnectivity_passes_iff_2xx_witness :
    (testAPIConnectivity (TransportResult.response 204 "")).success = true :=
  (apiConnectivity_passes_iff_2xx 204 "").1 (by decide)

/-- Claim C9: on every path of corsAwareFetch (resolution, rejection,
abort by the timer) the timeout timer is disarmed before the call settles,
so it cannot fire after resolution, and a transport that exceeds the
configured timeout settles as the timeout error rather than any other
error kind. -/
theorem corsAwareFetch_timer_released (timeoutMs : Nat) (ev : FetchEvent) :
    (corsAwareFetch timeoutMs ev).timer.armed = false ∧
    (ev = FetchEvent.timedOut →
      (corsAwareFetch timeoutMs ev).result = Except.error (timeoutMessage timeoutMs)) := by
  cases ev <;> simp [corsAwareFetch]

/-- Witness for claim C9 at the development timeout of 10000 ms. -/
theorem corsAwareFetch_timer_released_witness :
    (corsAwareFetch 10000 FetchEvent.timedOut).result =
      Except.error (timeoutMessage 10000) :=
  (corsAwareFetch_timer_released 10000 FetchEvent.timedOut).2 rfl

/-- Claim C10: a missing or empty token makes testAdminAPI return the
no-token failure record without performing any HTTP request, and the admin
endpoint is contacted only when a non-empty token is supplied. -/
theorem testAdminAPI_requires_token (token : Option String) (ev : AdminFetchEvent) :
    (jsTruthy token = false → testAdminAPI token ev = (false, noTokenResult)) ∧
    testAdminAPI none ev = (false, noTokenResult) ∧
    testAdminAPI (some "") ev = (false, noTokenResult) ∧
    ((testAdminAPI token ev).1 = true → jsTruthy token = true) := by
  refine ⟨?_, rfl, rfl, ?_⟩
  · intro hf
    simp [testAdminAPI, hf]
  · intro h1
    cases hj : jsTruthy token
    · exfalso
      rw [show testAdminAPI token ev = (false, noTokenResult) from by
        simp [testAdminAPI, hj]] at h1
      simp at h1
    · rfl

/-- Witness for claim C10 with an absent token and a transport that would
have thrown. -/
theorem testAdminAPI_requires_token_witness :
    testAdminAPI none (AdminFetchEvent.thrown "TypeError" "Failed to fetch") =
      (false, noTokenResult) :=
  (testAdminAPI_requires_token none
    (AdminFetchEvent.thrown "TypeError" "Failed to fetch")).1 rfl
